import Mathlib

/-!
Shallow embedding of `src/server.py` of bondage-club-bot-mcp.

The file models the session coordinator (`BotRuntime`), the callback
subclass (`MCPBCBot`) with its two bounded `deque` buffers, and the
room/account commands with their manual poll-until-reply loops.

Modelling conventions:
* Python dict payloads (events, chat messages, rooms) are association
  lists `List (String × String)`; key lookup is `List.lookup`.
* `deque(maxlen=n)` appends are `boundedAppend n`: append on the right,
  evict from the left when the length would exceed `n`.
* The asyncio tasks and timers are discretised: a timeout of `t` seconds
  with poll interval 0.2s becomes a tick budget `ticks : Nat`; the value
  a background callback has written into a shared field by poll step `t`
  is an environment function `Nat → _` supplied to the command.
* Awaited calls into the external protocol client (`connect`, `login`,
  `send_to_chat`, room requests) are recorded as an `Effect` list; the
  coordinator's own returned dict is the first component.
* The external `BCBot` base class is not part of the repository; only
  the fields the coordinator reads (`is_connected`, `is_logged_in`,
  `player`, `others`, `current_chatroom`) appear here, together with
  the buffer fields added by `MCPBCBot.__init__`.
-/

/-- Python dict payload: association list of string keys to string values. -/
abbrev MsgDict := List (String × String)

/-- Python `d[k] = v` on a dict: replace the value of an existing key in
place, otherwise append the new key at the end (insertion order kept). -/
def setKey (d : MsgDict) (k v : String) : MsgDict :=
  if d.any (fun kv => kv.1 = k) then
    d.map (fun kv => if kv.1 = k then (k, v) else kv)
  else
    d ++ [(k, v)]

/-- Append on a `deque(maxlen=n)`: add `x` at the right and drop from the
left whatever exceeds the capacity `n`. -/
def boundedAppend (n : Nat) (buf : List α) (x : α) : List α :=
  let b := buf ++ [x]
  b.drop (b.length - n)

/-- Character record as read by the coordinator: `player.get("MemberNumber")`
(absent key = `none`) and `player.get("Name")` (absent key = `none`;
call sites supply the `""` default). Other character keys are never read
by the coordinator and are not modelled. -/
structure Character where
  memberNumber : Option Int
  name : Option String
deriving Repr, DecidableEq

/-- Chat room record as read by the coordinator: `room.get("Name")` and
`room.get("PlayerOrder")` (`none` when the key is absent or not a list). -/
structure Room where
  name : Option String
  playerOrder : Option (List Int)
deriving Repr, DecidableEq

/-- Python truthiness test `not x` for an optional string
(`None` and `""` are falsy). -/
def optStrFalsy : Option String → Bool
  | none => true
  | some s => s.isEmpty

/-- Value of `(room_opt or {}).get("Name")`. -/
def roomName (r : Option Room) : Option String :=
  Option.bind r Room.name

/-- State of the `MCPBCBot` instance: the fields of the external `BCBot`
base object that the coordinator reads, plus the buffers and last-reply
fields added in `MCPBCBot.__init__` (src/server.py lines 17-25).
`login_requested` models `getattr(bot, "_login_requested", False)`. -/
structure MCPBCBot where
  username : String
  password : String
  appearance_code : String
  server_url : String
  origin : String
  is_connected : Bool
  is_logged_in : Bool
  player : Character
  others : List (Int × Character)
  current_chatroom : Option Room
  recent_events : List MsgDict
  message_history : List MsgDict
  last_account_query_results : List (String × Option String)
  last_chatroom_search_results : List MsgDict
  last_chatroom_create_response : Option String
  login_requested : Bool
deriving Repr, DecidableEq

/-- The `MCPBCBot(...)` constructor (src/server.py line 113): store the
credentials and start with the empty buffers of `MCPBCBot.__init__`.
Base-class fields are modelled from the spec: a fresh Session is neither
connected nor logged in and has no room or roster state yet. -/
def newBot (username password appearance_code server_url origin : String) : MCPBCBot :=
  { username := username
    password := password
    appearance_code := appearance_code
    server_url := server_url
    origin := origin
    is_connected := false
    is_logged_in := false
    player := ⟨none, none⟩
    others := []
    current_chatroom := none
    recent_events := []
    message_history := []
    last_account_query_results := []
    last_chatroom_search_results := []
    last_chatroom_create_response := none
    login_requested := false }

/-- `MCPBCBot.customized_event_handler` (src/server.py lines 26-27):
append the event payload to the `recent_events` deque (maxlen 100). -/
def customized_event_handler (bot : MCPBCBot) (data : MsgDict) : MCPBCBot :=
  { bot with recent_events := boundedAppend 100 bot.recent_events data }

/-- `MCPBCBot.on_ChatRoomMessage` (src/server.py lines 42-47): when the
payload is a dict (`some d`), copy it, stamp `"ReceivedAt"` with the
current time and append it to the `message_history` deque (maxlen 500);
non-dict payloads (`none`) are ignored. -/
def on_ChatRoomMessage (bot : MCPBCBot) (now : String) (data : Option MsgDict) : MCPBCBot :=
  match data with
  | some d =>
      { bot with message_history :=
          boundedAppend 500 bot.message_history (setKey d "ReceivedAt" now) }
  | none => bot

/-- `BotRuntime` state: the optional bot instance and the optional driving
task; for the task only "exists" and "done" matter, so it is modelled as
`Option Bool` where the Bool is `task.done()`. -/
structure BotRuntime where
  bot : Option MCPBCBot
  task : Option Bool
deriving Repr, DecidableEq

/-- `BotRuntime.running` (src/server.py lines 60-61):
the task exists and is not done. -/
def BotRuntime.running (rt : BotRuntime) : Bool :=
  match rt.task with
  | some done => !done
  | none => false

/-- `BotRuntime._get_running_bot` (src/server.py lines 63-67): the bot when
it exists and the runtime is running, else `None`. -/
def getRunningBot (rt : BotRuntime) : Option MCPBCBot :=
  match rt.bot with
  | none => none
  | some b => if rt.running then some b else none

/-- Result dict of `BotRuntime.start`: `ok`, `message`, and the optional
`member_number` key (`some v` = key present with value `v`, which is
itself the possibly-null `player.get("MemberNumber")`). -/
structure StartResult where
  ok : Bool
  message : String
  member_number : Option (Option Int)
deriving Repr, DecidableEq

/-- `BotRuntime.start` (src/server.py lines 97-125): under the start/stop
lock, if the task is running and a bot exists, return the idempotent
"already running" result with the player's member number and leave the
state unchanged; otherwise construct a fresh `MCPBCBot`, launch its task
(now live) and return `ok`/`message` only. -/
def BotRuntime.start (rt : BotRuntime)
    (username password appearance_code server_url origin : String) :
    BotRuntime × StartResult :=
  match rt.bot, rt.running with
  | some b, true =>
      (rt, ⟨true, "bot already running", some b.player.memberNumber⟩)
  | some _, false =>
      ({ bot := some (newBot username password appearance_code server_url origin)
         task := some false },
       ⟨true, "bot started", none⟩)
  | none, _ =>
      ({ bot := some (newBot username password appearance_code server_url origin)
         task := some false },
       ⟨true, "bot started", none⟩)

/-- Result dict of `BotRuntime.stop`. -/
structure StopResult where
  ok : Bool
  message : String
deriving Repr, DecidableEq

/-- `BotRuntime.stop` (src/server.py lines 171-186): if not running or the
task reference is `None`, clear both references and report "bot is not
running"; otherwise cancel the task, swallow the cancellation, clear both
references and report "bot stopped". Either way the call returns normally. -/
def BotRuntime.stop (rt : BotRuntime) : BotRuntime × StopResult :=
  if !rt.running || rt.task.isNone then
    (⟨none, none⟩, ⟨true, "bot is not running"⟩)
  else
    (⟨none, none⟩, ⟨true, "bot stopped"⟩)

/-- One entry of the member list built by `BotRuntime.status`:
`{"member_number": member.get("MemberNumber"), "name": member.get("Name", "")}`. -/
structure MemberEntry where
  member_number : Option Int
  name : String
deriving Repr, DecidableEq

/-- Sort key of the member list: `x.get("member_number") or 0`
(`None` falls back to 0; 0 itself is already 0). -/
def memberKey (e : MemberEntry) : Int :=
  e.member_number.getD 0

/-- `sorted(..., key=lambda x: x.get("member_number") or 0)`: Python's
stable sort, modelled with `List.mergeSort` on the key order. -/
def sortMembers (l : List MemberEntry) : List MemberEntry :=
  l.mergeSort (fun a b => decide (memberKey a ≤ memberKey b))

/-- Result of `BotRuntime.status`: either the bare `{"running": False}`
dict returned when no bot exists, or the full eight-key snapshot;
one constructor per `return` statement so key presence is exact. -/
inductive StatusResult where
  | notRunning
  | snapshot (running connected logged_in : Bool)
      (player_member_number : Option Int) (player_name : String)
      (chatroom : Option String) (member_count : Nat)
      (members : List MemberEntry) (recent_event_count : Nat)
deriving Repr, DecidableEq

/-- `BotRuntime.status` (src/server.py lines 188-216): with no bot, exactly
`{"running": False}`; otherwise the full snapshot with the member roster
sorted by `member_number or 0` and `member_count = len(members)`. -/
def BotRuntime.status (rt : BotRuntime) : StatusResult :=
  match rt.bot with
  | none => .notRunning
  | some bot =>
      let members := sortMembers (bot.others.map
        (fun p => ⟨p.2.memberNumber, p.2.name.getD ""⟩))
      .snapshot rt.running bot.is_connected bot.is_logged_in
        bot.player.memberNumber (bot.player.name.getD "")
        (roomName bot.current_chatroom)
        members.length members bot.recent_events.length

/-- Member list component of a status result (empty for `notRunning`). -/
def StatusResult.membersOf : StatusResult → List MemberEntry
  | .notRunning => []
  | .snapshot _ _ _ _ _ _ _ ms _ => ms

/-- Member count component of a status result (0 for `notRunning`). -/
def StatusResult.memberCountOf : StatusResult → Nat
  | .notRunning => 0
  | .snapshot _ _ _ _ _ _ mc _ _ => mc

/-- Awaited calls into the external protocol client, in program order.
`sleep` is one `asyncio.sleep` poll interval; the `*Request` effects stand
for the outgoing protocol requests (`send_to_chat`, `create_chatroom`,
`join_chatroom(name)`, `leave_chatroom`/`ChatRoomLeave`, `search_chatroom`,
`AccountQuery`). -/
inductive Effect where
  | connect
  | login
  | sleep
  | sendChatRequest (message : String)
  | createRequest
  | joinRequest (name : String)
  | leaveRequest
  | searchRequest (query : String)
  | accountQueryRequest (query : String)
deriving Repr, DecidableEq

/-- An error dict `{"ok": ..., "error": ...}`. -/
structure ErrResult where
  ok : Bool
  error : String
deriving Repr, DecidableEq

/-- First poll step at which the flag reads true, checking steps
`t, t+1, ..., t+fuel`; `none` when the flag stayed false for the whole
budget. Models `ok = flag; while not ok and elapsed < timeout: sleep; ok = flag`. -/
def pollFirst (flag : Nat → Bool) : Nat → Nat → Option Nat
  | t, 0 => if flag t then some t else none
  | t, fuel + 1 => if flag t then some t else pollFirst flag (t + 1) fuel

/-- Poll an optional shared field at steps `t, t+1, ..., t+fuel`, stopping
at the first non-`None` value; returns the captured value and the number
of sleeps performed. Models
`r = field; while elapsed < timeout and r is None: sleep; r = field`. -/
def pollOpt (env : Nat → Option α) : Nat → Nat → Option α × Nat
  | t, 0 => (env t, 0)
  | t, fuel + 1 =>
      match env t with
      | some v => (some v, 0)
      | none =>
          let r := pollOpt env (t + 1) fuel
          (r.1, r.2 + 1)

/-- `BotRuntime._ensure_logged_in` (src/server.py lines 69-95), manual
fallback branch (the `hasattr(bot, "ensure_logged_in")` branch delegates to
the external client and is out of scope). With no running bot, fail
immediately with "bot is not running" and no effects. Otherwise connect
(plus the 0.5s settle sleep) if not connected, initiate login once unless
already logged in or a login is outstanding, then poll the login flag:
`loggedInAt t` is the value of `bot.is_logged_in` at poll step `t`, and
`ticks` the loop budget `timeout / interval`. Success returns the bot;
a flag that never turns true returns "login failed or timeout". -/
def ensure_logged_in (rt : BotRuntime) (loggedInAt : Nat → Bool) (ticks : Nat) :
    Option MCPBCBot × Option ErrResult × List Effect :=
  match getRunningBot rt with
  | none => (none, some ⟨false, "bot is not running"⟩, [])
  | some bot =>
      let connectEffs : List Effect :=
        if bot.is_connected then [] else [.connect, .sleep]
      let loginEffs : List Effect :=
        if !loggedInAt 0 && !bot.login_requested then [.login] else []
      match pollFirst loggedInAt 0 ticks with
      | some t =>
          (some bot, none, connectEffs ++ loginEffs ++ List.replicate t .sleep)
      | none =>
          (none, some ⟨false, "login failed or timeout"⟩,
           connectEffs ++ loginEffs ++ List.replicate ticks .sleep)

/-- Result dict of `BotRuntime.send_chat`: the gate's error dict or
`{"ok": True, "message": "sent"}`; one constructor per return statement. -/
inductive SendResult where
  | err (ok : Bool) (error : String)
  | sent (ok : Bool) (message : String)
deriving Repr, DecidableEq

/-- `BotRuntime.send_chat` (src/server.py lines 218-225): route through the
login gate (15s budget, here `gateTicks`); on gate failure return the
gate's error dict unchanged; otherwise dispatch `send_to_chat` and return
success without waiting for delivery. -/
def send_chat (rt : BotRuntime) (loggedInAt : Nat → Bool) (gateTicks : Nat)
    (message : String) : SendResult × List Effect :=
  match ensure_logged_in rt loggedInAt gateTicks with
  | (_, some e, effs) => (.err e.ok e.error, effs)
  | (none, none, effs) => (.err false "bot is not running", effs)
  | (some _, none, effs) =>
      (.sent true "sent", effs ++ [.sendChatRequest message])

/-- Result dict of `BotRuntime.search_rooms`. -/
inductive SearchResult where
  | err (ok : Bool) (error : String)
  | done (ok : Bool) (count : Nat) (rooms : List MsgDict)
deriving Repr, DecidableEq

/-- Poll step at which a wait-for-flag loop stops reading, checking the
flag at steps `t, ..., t+fuel-1` and falling through to step `t+fuel` on
timeout. Models `while elapsed < timeout: if flag: break; sleep`. -/
def waitFlag (flag : Nat → Bool) : Nat → Nat → Nat
  | t, 0 => t
  | t, fuel + 1 => if flag t then t else waitFlag flag (t + 1) fuel

/-- `BotRuntime.search_rooms` (src/server.py lines 234-273), manual fallback
branch: after the login gate, clear the captured search results, issue the
search request, wait for the `_chatroom_search_done` flag (`doneAt`) up to
`ticks` poll steps, then read the captured room list (`resultsAt` at the
step where the wait stopped) and return `ok = True` unconditionally with
the room count. -/
def search_rooms (rt : BotRuntime) (loggedInAt : Nat → Bool) (gateTicks : Nat)
    (query : String) (doneAt : Nat → Bool) (resultsAt : Nat → List MsgDict)
    (ticks : Nat) : SearchResult × List Effect :=
  match ensure_logged_in rt loggedInAt gateTicks with
  | (_, some e, effs) => (.err e.ok e.error, effs)
  | (none, none, effs) => (.err false "bot is not running", effs)
  | (some _, none, effs) =>
      let stopT := waitFlag doneAt 0 ticks
      let rooms := resultsAt stopT
      (.done true rooms.length rooms,
       effs ++ [.searchRequest query] ++ List.replicate stopT .sleep)

/-- Result dict of `BotRuntime.create_room` and `BotRuntime.join_room`:
the gate's error dict, or `{"ok": ..., "response": ..., "current_chatroom": ...}`. -/
inductive RoomOpResult where
  | err (ok : Bool) (error : String)
  | done (ok : Bool) (response : Option String) (current_chatroom : Option String)
deriving Repr, DecidableEq

/-- `BotRuntime.create_room` (src/server.py lines 275-328), manual fallback
branch: after the login gate, reset the captured create response, issue
the create request, poll `last_chatroom_create_response` (`respAt`) until
non-`None` or the `ticks` budget is spent, and report
`ok = (result == "ChatRoomCreated")` with the raw response. -/
def create_room (rt : BotRuntime) (loggedInAt : Nat → Bool) (gateTicks : Nat)
    (respAt : Nat → Option String) (ticks : Nat) : RoomOpResult × List Effect :=
  match ensure_logged_in rt loggedInAt gateTicks with
  | (_, some e, effs) => (.err e.ok e.error, effs)
  | (none, none, effs) => (.err false "bot is not running", effs)
  | (some bot, none, effs) =>
      let r := pollOpt respAt 0 ticks
      (.done (r.1 = some "ChatRoomCreated") r.1 (roomName bot.current_chatroom),
       effs ++ [.createRequest] ++ List.replicate r.2 .sleep)

/-- `BotRuntime.join_room` (src/server.py lines 330-353), manual fallback
branch: after the login gate, issue the join request, poll
`_chatroom_join_response` (`respAt`) until non-`None` or timeout, and
report `ok = (response == "JoinedRoom")` with the raw response. -/
def join_room (rt : BotRuntime) (loggedInAt : Nat → Bool) (gateTicks : Nat)
    (name : String) (respAt : Nat → Option String) (ticks : Nat) :
    RoomOpResult × List Effect :=
  match ensure_logged_in rt loggedInAt gateTicks with
  | (_, some e, effs) => (.err e.ok e.error, effs)
  | (none, none, effs) => (.err false "bot is not running", effs)
  | (some bot, none, effs) =>
      let r := pollOpt respAt 0 ticks
      (.done (r.1 = some "JoinedRoom") r.1 (roomName bot.current_chatroom),
       effs ++ [.joinRequest name] ++ List.replicate r.2 .sleep)

/-- Result dict of `BotRuntime.leave_room`: the not-running error dict, one
of the two `{"ok": True, "message": ...}` dicts, or the timeout dict with
the still-current room name. -/
inductive LeaveResult where
  | err (ok : Bool) (error : String)
  | okMsg (ok : Bool) (message : String)
  | timeout (ok : Bool) (error : String) (current_chatroom : Option String)
deriving Repr, DecidableEq

/-- Poll step (checking steps `t, ..., t+fuel-1`) at which
`bot.current_chatroom` first reads as absent, `none` when it stays present
for the whole budget. Models
`while elapsed < timeout: if not bot.current_chatroom: return ...; sleep`. -/
def leaveWait (roomAt : Nat → Option Room) : Nat → Nat → Option Nat
  | _, 0 => none
  | t, fuel + 1 =>
      if (roomAt t).isNone then some t else leaveWait roomAt (t + 1) fuel

/-- `BotRuntime.leave_room` (src/server.py lines 355-381): requires only a
running bot (no login gate). If the current-room record is absent or its
name is absent/empty (Python falsy), return "already not in chatroom" at
once with no protocol request and no sleeping. Otherwise issue the leave
request (`leave_chatroom`, or the `ChatRoomLeave` event in the fallback),
poll the room field (`roomAt`) up to `ticks` steps: success "left
chatroom" once it reads absent, otherwise the "leave timeout" error with
the room name still present at the final read. -/
def leave_room (rt : BotRuntime) (roomAt : Nat → Option Room) (ticks : Nat) :
    LeaveResult × List Effect :=
  match getRunningBot rt with
  | none => (.err false "bot is not running", [])
  | some bot =>
      if optStrFalsy (roomName bot.current_chatroom) then
        (.okMsg true "already not in chatroom", [])
      else
        match leaveWait roomAt 0 ticks with
        | some t =>
            (.okMsg true "left chatroom", .leaveRequest :: List.replicate t .sleep)
        | none =>
            (.timeout false "leave timeout" (roomName (roomAt ticks)),
             .leaveRequest :: List.replicate ticks .sleep)

/-- Result dict of `BotRuntime.account_query`: the gate's error dict or
`{"ok": result is not None, "query": ..., "result": ...}`. -/
inductive AccountResult where
  | err (ok : Bool) (error : String)
  | done (ok : Bool) (query : String) (result : Option String)
deriving Repr, DecidableEq

/-- True when the query key is present in the captured results map. -/
def hasQueryKey (m : List (String × Option String)) (q : String) : Bool :=
  m.any (fun kv => kv.1 = q)

/-- The results map at the poll step where the wait loop stops: it checks
`query in map` at steps `t, ..., t+fuel-1` and falls through to step
`t+fuel` on timeout; the final `get(query)` reads the map at that step. -/
def waitKey (mapAt : Nat → List (String × Option String)) (q : String) :
    Nat → Nat → List (String × Option String)
  | t, 0 => mapAt t
  | t, fuel + 1 =>
      if hasQueryKey (mapAt t) q then mapAt t else waitKey mapAt q (t + 1) fuel

/-- Python `dict.get(q)` on the captured results map: `None` both when the
key is absent and when the stored `data.get("Result")` was itself `None`. -/
def getQuery (m : List (String × Option String)) (q : String) : Option String :=
  match m.find? (fun kv => kv.1 = q) with
  | none => none
  | some kv => kv.2

/-- `BotRuntime.account_query` (src/server.py lines 395-416), manual
fallback branch: after the login gate, pop any stale entry for the query,
issue the `AccountQuery` event, wait until the query key appears in
`last_account_query_results` (`mapAt`, whose step-0 value reflects the
pop) or the `ticks` budget is spent, then read `result = map.get(query)`
and report `ok = (result is not None)`. -/
def account_query (rt : BotRuntime) (loggedInAt : Nat → Bool) (gateTicks : Nat)
    (query : String) (mapAt : Nat → List (String × Option String)) (ticks : Nat) :
    AccountResult × List Effect :=
  match ensure_logged_in rt loggedInAt gateTicks with
  | (_, some e, effs) => (.err e.ok e.error, effs)
  | (none, none, effs) => (.err false "bot is not running", effs)
  | (some _, none, effs) =>
      let finalMap := waitKey mapAt query 0 ticks
      let result := getQuery finalMap query
      (.done result.isSome query result,
       effs ++ [.accountQueryRequest query])

/-- Result dict of `BotRuntime.get_room_member_detail`; one constructor per
return statement (not-running / invalid-input errors, cache miss, hit). -/
inductive DetailResult where
  | err (ok : Bool) (error : String)
  | notFound (ok : Bool) (error : String) (chatroom : Option String)
  | found (ok : Bool) (chatroom : Option String) (member_number : Int)
      (is_self : Bool) (is_in_player_order : Bool) (character : Character)
deriving Repr, DecidableEq

/-- `BotRuntime.get_room_member_detail` (src/server.py lines 443-474),
cache fallback branch: with no running bot, the not-running error; with
`member_number <= 0`, the `{"ok": False, "error": "member_number must be
> 0"}` dict — both plain returns, never an exception. Otherwise look the
member up in `player`/`others`, report a cache miss, or build the detail
record from the current room (`PlayerOrder` defaulting to the empty
list). -/
def get_room_member_detail (rt : BotRuntime) (member_number : Int) : DetailResult :=
  match getRunningBot rt with
  | none => .err false "bot is not running"
  | some bot =>
      if member_number ≤ 0 then
        .err false "member_number must be > 0"
      else
        let character :=
          if bot.player.memberNumber = some member_number then some bot.player
          else (bot.others.find? (fun p => p.1 = member_number)).map Prod.snd
        match character with
        | none =>
            .notFound false "member not found in local cache"
              (roomName bot.current_chatroom)
        | some c =>
            let room := bot.current_chatroom.getD ⟨none, none⟩
            .found true room.name member_number
              (bot.player.memberNumber = some member_number)
              (decide (member_number ∈ room.playerOrder.getD []))
              c

/-- The `ok` field of a search result dict. -/
def SearchResult.okOf : SearchResult → Bool
  | .err ok _ => ok
  | .done ok _ _ => ok

/-- The `ok` field of a create/join result dict. -/
def RoomOpResult.okOf : RoomOpResult → Bool
  | .err ok _ => ok
  | .done ok _ _ => ok

/-- The `response` field of a create/join result dict (`none` when the key
is absent, i.e. on the gate-error dict). -/
def RoomOpResult.responseOf : RoomOpResult → Option String
  | .err _ _ => none
  | .done _ r _ => r

/-- The `ok` field of an account-query result dict. -/
def AccountResult.okOf : AccountResult → Bool
  | .err ok _ => ok
  | .done ok _ _ => ok

/-- The `ok` field of a leave-room result dict. -/
def LeaveResult.okOf : LeaveResult → Bool
  | .err ok _ => ok
  | .okMsg ok _ => ok
  | .timeout ok _ _ => ok

/-- The chat-message records actually inserted by a sequence of
`on_ChatRoomMessage` calls: dict payloads stamped with their receipt
timestamp, non-dict payloads dropped. -/
def stamped (inputs : List (String × Option MsgDict)) : List MsgDict :=
  inputs.filterMap (fun q => q.2.map (fun d => setKey d "ReceivedAt" q.1))

/-- Concrete connected bot sitting in a room, used by witnesses. -/
def botC : MCPBCBot :=
  { newBot "alice" "pw" "" "srv" "org" with
    is_connected := true
    is_logged_in := true
    player := ⟨some 7, some "Alice"⟩
    current_chatroom := some ⟨some "Lobby", none⟩ }

/-- Concrete running runtime holding `botC`, used by witnesses. -/
def rtC : BotRuntime := ⟨some botC, some false⟩

/-- Concrete bot that is not in any room, used by witnesses. -/
def botNoRoom : MCPBCBot :=
  { botC with current_chatroom := none }

/-- Concrete running runtime holding `botNoRoom`, used by witnesses. -/
def rtNoRoom : BotRuntime := ⟨some botNoRoom, some false⟩

/-- Concrete runtime with no session at all, used by witnesses. -/
def rtIdle : BotRuntime := ⟨none, none⟩

/-- Concrete bot with a three-member roster, out of order and with one
member lacking a member number, used by witnesses. -/
def botRoster : MCPBCBot :=
  { botC with others :=
      [(9, ⟨some 9, some "Iris"⟩), (2, ⟨none, none⟩), (4, ⟨some 4, some "Dana"⟩)] }

/-- Concrete running runtime holding `botRoster`, used by witnesses. -/
def rtRoster : BotRuntime := ⟨some botRoster, some false⟩

theorem pollFirst_zero (flag : Nat → Bool) (h : flag 0 = true) (fuel : Nat) :
    pollFirst flag 0 fuel = some 0 := by
  cases fuel <;> simp [pollFirst, h]

theorem getRunningBot_eq_none (rt : BotRuntime) (h : rt.running = false) :
    getRunningBot rt = none := by
  cases hb : rt.bot <;> simp [getRunningBot, hb, h]

theorem ensure_logged_in_not_running (rt : BotRuntime) (f : Nat → Bool) (k : Nat)
    (h : getRunningBot rt = none) :
    ensure_logged_in rt f k = (none, some ⟨false, "bot is not running"⟩, []) := by
  simp [ensure_logged_in, h]

theorem ensure_logged_in_fast (rt : BotRuntime) (bot : MCPBCBot) (f : Nat → Bool)
    (k : Nat) (hb : getRunningBot rt = some bot) (hc : bot.is_connected = true)
    (hl : f 0 = true) :
    ensure_logged_in rt f k = (some bot, none, []) := by
  simp [ensure_logged_in, hb, hc, hl, pollFirst_zero f hl k]

theorem stop_state (rt : BotRuntime) : (rt.stop).1 = ⟨none, none⟩ := by
  unfold BotRuntime.stop
  split <;> rfl

theorem stop_ok (rt : BotRuntime) : (rt.stop).2.ok = true := by
  unfold BotRuntime.stop
  split <;> rfl

/-- C3: when no session object exists (`self._bot is None`, in particular
before any `start` call), `status` returns exactly the one-key dict
`{"running": False}`. -/
theorem status_no_session (rt : BotRuntime) (h : rt.bot = none) :
    rt.status = StatusResult.notRunning := by
  simp [BotRuntime.status, h]

theorem status_no_session_witness : rtIdle.status = StatusResult.notRunning :=
  status_no_session rtIdle rfl

/-- C2: when a session handle is already live (`running` task and bot
present), `start` returns success with the "bot already running" message
and the player's member number and leaves the runtime state unchanged
(no new session); on every other path it returns success carrying `ok`
and `message` only; the `member_number` key is present exactly on the
idempotent already-running path. -/
theorem start_contract (rt : BotRuntime) (b : MCPBCBot) (u p a s o : String) :
    (rt.bot = some b → rt.running = true →
      rt.start u p a s o =
        (rt, ⟨true, "bot already running", some b.player.memberNumber⟩)) ∧
    (rt.bot = none → (rt.start u p a s o).2 = ⟨true, "bot started", none⟩) ∧
    (rt.running = false → (rt.start u p a s o).2 = ⟨true, "bot started", none⟩) ∧
    ((rt.start u p a s o).2.member_number ≠ none ↔
      rt.running = true ∧ rt.bot ≠ none) := by
  rcases hb : rt.bot with _ | b' <;> cases hr : rt.running <;>
    simp [BotRuntime.start, hb, hr]
  intro h
  cases h
  rfl

theorem start_contract_witness :
    rtC.start "u" "p" "" "s" "o" =
      (rtC, ⟨true, "bot already running", some (some 7)⟩) ∧
    (rtIdle.start "u" "p" "" "s" "o").2 = ⟨true, "bot started", none⟩ :=
  ⟨(start_contract rtC botC "u" "p" "" "s" "o").1 rfl rfl,
   (start_contract rtIdle botC "u" "p" "" "s" "o").2.1 rfl⟩

/-- C8: `stop` on a non-running runtime clears any stale session reference,
returns success with the "bot is not running" message and leaves the
coordinator not running; `stop` after `stop` (for an arbitrary starting
state) leaves the same state as the single call and both calls report
`ok = True` — the function is total, so no call raises. -/
theorem stop_idempotent (rt rt2 : BotRuntime) (h : rt.running = false) :
    rt.stop = (⟨none, none⟩, ⟨true, "bot is not running"⟩) ∧
    (rt.stop).1.running = false ∧
    ((rt2.stop).1.stop).1 = (rt2.stop).1 ∧
    (rt2.stop).2.ok = true ∧ ((rt2.stop).1.stop).2.ok = true := by
  refine ⟨?_, ?_, ?_, stop_ok rt2, stop_ok _⟩
  · simp [BotRuntime.stop, h]
  · rw [stop_state rt]; rfl
  · rw [stop_state rt2, stop_state ⟨none, none⟩]
theorem stop_idempotent_witness :
    rtIdle.stop = (⟨none, none⟩, ⟨true, "bot is not running"⟩) ∧
    (rtIdle.stop).1.running = false ∧
    ((rtC.stop).1.stop).1 = (rtC.stop).1 ∧
    (rtC.stop).2.ok = true ∧ ((rtC.stop).1.stop).2.ok = true :=
  stop_idempotent rtIdle rtC rfl

/-- C6: every login-gated operation invoked while the runtime is not
running returns exactly the `{"ok": False, "error": "bot is not running"}`
dict, and the gate fails before any awaited protocol call — in particular
neither `connect` nor `login` is attempted (empty effect list). -/
theorem gated_ops_not_running (rt : BotRuntime) (f : Nat → Bool) (k ticks : Nat)
    (msg q name : String) (doneAt : Nat → Bool) (resultsAt : Nat → List MsgDict)
    (respAt : Nat → Option String) (mapAt : Nat → List (String × Option String))
    (h : rt.running = false) :
    ensure_logged_in rt f k = (none, some ⟨false, "bot is not running"⟩, []) ∧
    send_chat rt f k msg = (.err false "bot is not running", []) ∧
    search_rooms rt f k q doneAt resultsAt ticks =
      (.err false "bot is not running", []) ∧
    create_room rt f k respAt ticks = (.err false "bot is not running", []) ∧
    join_room rt f k name respAt ticks = (.err false "bot is not running", []) ∧
    account_query rt f k q mapAt ticks = (.err false "bot is not running", []) := by
  have hg := ensure_logged_in_not_running rt f k (getRunningBot_eq_none rt h)
  exact ⟨hg,
    by simp [send_chat, hg],
    by simp [search_rooms, hg],
    by simp [create_room, hg],
    by simp [join_room, hg],
    by simp [account_query, hg]⟩

theorem gated_ops_not_running_witness :
    ensure_logged_in rtIdle (fun _ => true) 75 =
      (none, some ⟨false, "bot is not running"⟩, []) ∧
    send_chat rtIdle (fun _ => true) 75 "hi" =
      (.err false "bot is not running", []) ∧
    search_rooms rtIdle (fun _ => true) 75 "" (fun _ => false) (fun _ => []) 50 =
      (.err false "bot is not running", []) ∧
    create_room rtIdle (fun _ => true) 75 (fun _ => none) 50 =
      (.err false "bot is not running", []) ∧
    join_room rtIdle (fun _ => true) 75 "Lobby" (fun _ => none) 50 =
      (.err false "bot is not running", []) ∧
    account_query rtIdle (fun _ => true) 75 "OnlineFriends" (fun _ => []) 50 =
      (.err false "bot is not running", []) :=
  gated_ops_not_running rtIdle (fun _ => true) 75 50 "hi" "OnlineFriends" "Lobby"
    (fun _ => false) (fun _ => []) (fun _ => none) (fun _ => []) rfl

/-- C9: `get_room_member_detail` on a running session rejects a
non-positive member identifier with the ordinary structured failure
`{"ok": False, "error": "member_number must be > 0"}`; the model is a
total function, so the call returns this value rather than raising. -/
theorem member_detail_nonpositive (rt : BotRuntime) (bot : MCPBCBot) (m : Int)
    (hb : getRunningBot rt = some bot) (hm : m ≤ 0) :
    get_room_member_detail rt m = .err false "member_number must be > 0" := by
  simp [get_room_member_detail, hb, hm]

theorem member_detail_nonpositive_witness :
    get_room_member_detail rtC 0 = .err false "member_number must be > 0" ∧
    get_room_member_detail rtC (-3) = .err false "member_number must be > 0" :=
  ⟨member_detail_nonpositive rtC botC 0 rfl (by decide),
   member_detail_nonpositive rtC botC (-3) rfl (by decide)⟩

/-- C10: `leave_room` on a running session whose current-room record is
absent or has a missing/empty name returns success with the
"already not in chatroom" message at once, performing no protocol leave
request and no waiting (empty effect list). -/
theorem leave_room_already_out (rt : BotRuntime) (bot : MCPBCBot)
    (roomAt : Nat → Option Room) (ticks : Nat)
    (hb : getRunningBot rt = some bot)
    (hname : optStrFalsy (roomName bot.current_chatroom) = true) :
    leave_room rt roomAt ticks = (.okMsg true "already not in chatroom", []) := by
  simp [leave_room, hb, hname]

theorem leave_room_already_out_witness :
    leave_room rtNoRoom (fun _ => some ⟨some "Lobby", none⟩) 25 =
      (.okMsg true "already not in chatroom", []) :=
  leave_room_already_out rtNoRoom botNoRoom (fun _ => some ⟨some "Lobby", none⟩) 25
    rfl rfl

theorem pollOpt_fst_eq_none {α : Type} (env : Nat → Option α) (fuel : Nat) :
    ∀ t, (∀ s, t ≤ s → s ≤ t + fuel → env s = none) →
      (pollOpt env t fuel).1 = none := by
  induction fuel with
  | zero =>
      intro t h
      simp [pollOpt, h t le_rfl (by omega)]
  | succ n ih =>
      intro t h
      have h0 : env t = none := h t le_rfl (by omega)
      simp [pollOpt, h0]
      exact ih (t + 1) (fun s hs1 hs2 => h s (by omega) (by omega))

theorem leaveWait_eq_none (roomAt : Nat → Option Room) (fuel : Nat) :
    ∀ t, (∀ s, t ≤ s → s < t + fuel → (roomAt s).isSome = true) →
      leaveWait roomAt t fuel = none := by
  induction fuel with
  | zero => intro t _; rfl
  | succ n ih =>
      intro t h
      have h0 : (roomAt t).isNone = false := by
        cases hr : roomAt t
        · have := h t le_rfl (by omega)
          rw [hr] at this
          simp at this
        · rfl
      simp [leaveWait, h0]
      exact ih (t + 1) (fun s hs1 hs2 => h s (by omega) (by omega))

theorem waitKey_exists (mapAt : Nat → List (String × Option String)) (q : String)
    (fuel : Nat) :
    ∀ t, ∃ s, t ≤ s ∧ s ≤ t + fuel ∧ waitKey mapAt q t fuel = mapAt s := by
  induction fuel with
  | zero => intro t; exact ⟨t, le_rfl, by omega, rfl⟩
  | succ n ih =>
      intro t
      by_cases h : hasQueryKey (mapAt t) q = true
      · exact ⟨t, le_rfl, by omega, by simp [waitKey, h]⟩
      · have h' : hasQueryKey (mapAt t) q = false := by
          cases hq : hasQueryKey (mapAt t) q
          · rfl
          · exact absurd hq h
        obtain ⟨s, hs1, hs2, hs3⟩ := ih (t + 1)
        exact ⟨s, by omega, by omega, by simp [waitKey, h', hs3]⟩

/-- C5: on a running, connected, logged-in session, the `ok` field of
`create_room` is true exactly when the observed create reply (the raw
`response` field of the result) equals the literal marker
`"ChatRoomCreated"`, and the `ok` field of `join_room` is true exactly
when the observed join reply equals the literal marker `"JoinedRoom"`. -/
theorem create_join_marker_iff (rt : BotRuntime) (bot : MCPBCBot)
    (f : Nat → Bool) (k : Nat) (respAt joinAt : Nat → Option String)
    (name : String) (ticks : Nat)
    (hb : getRunningBot rt = some bot) (hc : bot.is_connected = true)
    (hl : f 0 = true) :
    ((create_room rt f k respAt ticks).1.okOf = true ↔
      (create_room rt f k respAt ticks).1.responseOf = some "ChatRoomCreated") ∧
    ((join_room rt f k name joinAt ticks).1.okOf = true ↔
      (join_room rt f k name joinAt ticks).1.responseOf = some "JoinedRoom") := by
  have hg := ensure_logged_in_fast rt bot f k hb hc hl
  constructor
  · simp [create_room, hg, RoomOpResult.okOf, RoomOpResult.responseOf]
  · simp [join_room, hg, RoomOpResult.okOf, RoomOpResult.responseOf]

theorem create_join_marker_iff_witness :
    ((create_room rtC (fun _ => true) 75 (fun _ => some "ChatRoomCreated") 50).1.okOf
        = true ↔
      (create_room rtC (fun _ => true) 75 (fun _ => some "ChatRoomCreated") 50).1.responseOf
        = some "ChatRoomCreated") ∧
    ((join_room rtC (fun _ => true) 75 "Lobby" (fun _ => some "JoinedRoom") 50).1.okOf
        = true ↔
      (join_room rtC (fun _ => true) 75 "Lobby" (fun _ => some "JoinedRoom") 50).1.responseOf
        = some "JoinedRoom") :=
  create_join_marker_iff rtC botC (fun _ => true) 75
    (fun _ => some "ChatRoomCreated") (fun _ => some "JoinedRoom") "Lobby" 50
    rfl rfl rfl

/-- C1 counterexample: on a running, connected, logged-in session where
the search reply never arrives (the `_chatroom_search_done` flag stays
false and no room list is captured for the whole 50-tick timeout),
`search_rooms` still returns `ok = True` — refuting the claim that every
reply-awaiting room/account command returns `ok: false` when the expected
terminal reply is absent. -/
theorem search_rooms_ok_true_despite_absent_reply :
    (search_rooms rtC (fun _ => true) 75 "" (fun _ => false) (fun _ => []) 50).1 =
      .done true 0 [] ∧
    (search_rooms rtC (fun _ => true) 75 "" (fun _ => false) (fun _ => []) 50).1.okOf
      = true := by
  constructor <;> rfl

/-- C1 (amended): on a running, connected, logged-in session, `create_room`,
`join_room`, `account_query` and `leave_room` (the latter when currently in
a named room) each return `ok = True` exactly when the expected terminal
reply value was observed by their poll loop before the timeout, and in
particular return `ok = False` whenever the expected reply is absent for
the whole timeout window; `search_rooms`, by contrast, returns `ok = True`
unconditionally once the login gate passes, whether or not a search reply
was observed. -/
theorem reply_ok_iff_amended (rt : BotRuntime) (bot : MCPBCBot)
    (f : Nat → Bool) (k : Nat) (respAt joinAt : Nat → Option String)
    (mapAt : Nat → List (String × Option String)) (roomAt : Nat → Option Room)
    (doneAt : Nat → Bool) (resultsAt : Nat → List MsgDict)
    (q name : String) (ticks : Nat)
    (hb : getRunningBot rt = some bot) (hc : bot.is_connected = true)
    (hl : f 0 = true) :
    ((create_room rt f k respAt ticks).1.okOf = true ↔
      (pollOpt respAt 0 ticks).1 = some "ChatRoomCreated") ∧
    ((∀ t, t ≤ ticks → respAt t = none) →
      (create_room rt f k respAt ticks).1.okOf = false) ∧
    ((join_room rt f k name joinAt ticks).1.okOf = true ↔
      (pollOpt joinAt 0 ticks).1 = some "JoinedRoom") ∧
    ((∀ t, t ≤ ticks → joinAt t = none) →
      (join_room rt f k name joinAt ticks).1.okOf = false) ∧
    ((account_query rt f k q mapAt ticks).1.okOf = true ↔
      (getQuery (waitKey mapAt q 0 ticks) q).isSome = true) ∧
    ((∀ t, t ≤ ticks → getQuery (mapAt t) q = none) →
      (account_query rt f k q mapAt ticks).1.okOf = false) ∧
    (optStrFalsy (roomName bot.current_chatroom) = false →
      ((leave_room rt roomAt ticks).1.okOf = true ↔
        (leaveWait roomAt 0 ticks).isSome = true)) ∧
    (optStrFalsy (roomName bot.current_chatroom) = false →
      (∀ t, t ≤ ticks → (roomAt t).isSome = true) →
      (leave_room rt roomAt ticks).1.okOf = false) ∧
    (search_rooms rt f k q doneAt resultsAt ticks).1.okOf = true := by
  have hg := ensure_logged_in_fast rt bot f k hb hc hl
  have hbr : getRunningBot rt = some bot := hb
  refine ⟨?_, ?_, ?_, ?_, ?_, ?_, ?_, ?_, ?_⟩
  · simp [create_room, hg, RoomOpResult.okOf]
  · intro habs
    have hnone := pollOpt_fst_eq_none respAt ticks 0
      (fun s hs1 hs2 => habs s (by omega))
    simp [create_room, hg, RoomOpResult.okOf, hnone]
  · simp [join_room, hg, RoomOpResult.okOf]
  · intro habs
    have hnone := pollOpt_fst_eq_none joinAt ticks 0
      (fun s hs1 hs2 => habs s (by omega))
    simp [join_room, hg, RoomOpResult.okOf, hnone]
  · simp [account_query, hg, AccountResult.okOf]
  · intro habs
    obtain ⟨s, hs1, hs2, hs3⟩ := waitKey_exists mapAt q ticks 0
    simp [account_query, hg, AccountResult.okOf, hs3, habs s (by omega)]
  · intro hroom
    cases hw : leaveWait roomAt 0 ticks <;>
      simp [leave_room, hbr, hroom, hw, LeaveResult.okOf]
  · intro hroom habs
    have hnone := leaveWait_eq_none roomAt ticks 0
      (fun s hs1 hs2 => habs s (by omega))
    simp [leave_room, hbr, hroom, hnone, LeaveResult.okOf]
  · simp [search_rooms, hg, SearchResult.okOf]

theorem reply_ok_iff_amended_witness :
    (create_room rtC (fun _ => true) 75 (fun _ => none) 50).1.okOf = false ∧
    (join_room rtC (fun _ => true) 75 "Lobby" (fun _ => none) 50).1.okOf = false ∧
    (account_query rtC (fun _ => true) 75 "OnlineFriends" (fun _ => []) 50).1.okOf
      = false ∧
    (leave_room rtC (fun _ => some ⟨some "Lobby", none⟩) 50).1.okOf = false ∧
    (search_rooms rtC (fun _ => true) 75 "" (fun _ => false) (fun _ => []) 50).1.okOf
      = true := by
  have h := reply_ok_iff_amended rtC botC (fun _ => true) 75 (fun _ => none)
    (fun _ => none) (fun _ => []) (fun _ => some ⟨some "Lobby", none⟩)
    (fun _ => false) (fun _ => []) "OnlineFriends" "Lobby" 50 rfl rfl rfl
  exact ⟨h.2.1 (fun t _ => rfl),
    h.2.2.2.1 (fun t _ => rfl),
    h.2.2.2.2.2.1 (fun t _ => rfl),
    h.2.2.2.2.2.2.2.1 rfl (fun t _ => rfl),
    h.2.2.2.2.2.2.2.2⟩

theorem sortMembers_pairwise (l : List MemberEntry) :
    (sortMembers l).Pairwise (fun a b => memberKey a ≤ memberKey b) := by
  have h := @List.sorted_mergeSort MemberEntry
    (fun a b : MemberEntry => decide (memberKey a ≤ memberKey b))
    (fun a b c hab hbc => by
      simp only [decide_eq_true_eq] at *
      omega)
    (fun a b => by
      simp only [Bool.or_eq_true, decide_eq_true_eq]
      exact Int.le_total _ _)
    l
  exact h.imp (fun hab => by simpa using hab)

theorem mem_sortMembers (l : List MemberEntry) (e : MemberEntry) :
    e ∈ sortMembers l ↔ e ∈ l := by
  simp [sortMembers, List.mem_mergeSort]

/-- C7: in every status snapshot the member list is sorted ascending by
the numeric key `member_number or 0` (so a member whose identifier is
absent or zero sorts before every member with a positive identifier,
provided roster identifiers are non-negative as the protocol assigns
them), and `member_count` equals the length of that list. -/
theorem status_members_sorted (rt : BotRuntime)
    (hpos : ∀ b, rt.bot = some b → ∀ p ∈ b.others, ∀ m : Int,
      p.2.memberNumber = some m → 0 ≤ m) :
    (rt.status).membersOf.Pairwise (fun a b => memberKey a ≤ memberKey b) ∧
    (rt.status).memberCountOf = (rt.status).membersOf.length ∧
    (∀ i j : Nat, ∀ hi : i < (rt.status).membersOf.length,
      ∀ hj : j < (rt.status).membersOf.length, i < j →
      memberKey ((rt.status).membersOf[j]) = 0 →
      memberKey ((rt.status).membersOf[i]) = 0) := by
  cases hb : rt.bot with
  | none =>
      refine ⟨?_, ?_, ?_⟩ <;>
        simp [BotRuntime.status, hb, StatusResult.membersOf, StatusResult.memberCountOf]
  | some b =>
      have hms : (rt.status).membersOf =
          sortMembers (b.others.map (fun p => ⟨p.2.memberNumber, p.2.name.getD ""⟩)) := by
        simp [BotRuntime.status, hb, StatusResult.membersOf]
      have hmc : (rt.status).memberCountOf = (rt.status).membersOf.length := by
        simp [BotRuntime.status, hb, StatusResult.membersOf, StatusResult.memberCountOf]
      have hpair := sortMembers_pairwise
        (b.others.map (fun p => ⟨p.2.memberNumber, p.2.name.getD ""⟩))
      have hnonneg : ∀ e ∈ (rt.status).membersOf, 0 ≤ memberKey e := by
        intro e he
        rw [hms, mem_sortMembers] at he
        obtain ⟨p, hp, rfl⟩ := List.mem_map.mp he
        cases hmn : p.2.memberNumber with
        | none => simp [memberKey, hmn]
        | some m =>
            have := hpos b hb p hp m hmn
            simpa [memberKey, hmn] using this
      refine ⟨hms ▸ hpair, hmc, ?_⟩
      intro i j hi hj hij hkj
      have hpair' : (rt.status).membersOf.Pairwise
          (fun a b => memberKey a ≤ memberKey b) := hms ▸ hpair
      have hle := (List.pairwise_iff_getElem.mp hpair') i j hi hj hij
      have hni := hnonneg ((rt.status).membersOf[i]) (List.getElem_mem hi)
      omega

theorem status_members_sorted_witness :
    (rtRoster.status).membersOf.Pairwise (fun a b => memberKey a ≤ memberKey b) ∧
    (rtRoster.status).memberCountOf = (rtRoster.status).membersOf.length ∧
    (∀ i j : Nat, ∀ hi : i < (rtRoster.status).membersOf.length,
      ∀ hj : j < (rtRoster.status).membersOf.length, i < j →
      memberKey ((rtRoster.status).membersOf[j]) = 0 →
      memberKey ((rtRoster.status).membersOf[i]) = 0) :=
  status_members_sorted rtRoster (by
    intro b hb p hp m hm
    have hsome : some botRoster = some b := hb
    have hbb : b = botRoster := (Option.some.inj hsome).symm
    subst hbb
    simp [botRoster, botC] at hp
    rcases hp with h | h | h <;> subst h <;> simp_all <;> omega)

theorem foldl_boundedAppend {α : Type} (n : Nat) (xs : List α) :
    xs.foldl (boundedAppend n) [] = xs.drop (xs.length - n) := by
  induction xs using List.reverseRecOn with
  | nil => simp
  | append_singleton ys x ih =>
      rw [List.foldl_append, List.foldl_cons, List.foldl_nil, ih]
      have hsplit : ys.drop (ys.length - n) ++ [x] =
          (ys ++ [x]).drop (ys.length - n) :=
        (List.drop_append_of_le_length (by omega)).symm
      simp only [boundedAppend, hsplit, List.drop_drop]
      congr 1
      simp only [List.length_drop, List.length_append, List.length_cons,
        List.length_nil]
      omega

theorem recent_events_foldl (xs : List MsgDict) :
    ∀ bot : MCPBCBot, (xs.foldl customized_event_handler bot).recent_events =
      xs.foldl (boundedAppend 100) bot.recent_events := by
  induction xs with
  | nil => intro bot; rfl
  | cons x xs ih =>
      intro bot
      simp only [List.foldl_cons]
      rw [ih]
      rfl

theorem message_history_foldl (inputs : List (String × Option MsgDict)) :
    ∀ bot : MCPBCBot,
      (inputs.foldl (fun b q => on_ChatRoomMessage b q.1 q.2) bot).message_history =
        (stamped inputs).foldl (boundedAppend 500) bot.message_history := by
  induction inputs with
  | nil => intro bot; rfl
  | cons q qs ih =>
      intro bot
      rcases q with ⟨ts, d⟩
      cases d with
      | none =>
          simp only [List.foldl_cons]
          rw [ih]
          rfl
      | some d =>
          simp only [List.foldl_cons]
          rw [ih]
          rw [show stamped ((ts, some d) :: qs) =
              setKey d "ReceivedAt" ts :: stamped qs from rfl]
          rw [List.foldl_cons]
          simp [on_ChatRoomMessage]

theorem lookup_map_replace (k v : String) :
    ∀ d : MsgDict, d.any (fun kv => kv.1 = k) = true →
      (d.map (fun kv => if kv.1 = k then (k, v) else kv)).lookup k = some v := by
  intro d
  induction d with
  | nil => simp
  | cons kv tl ih =>
      intro h
      rcases kv with ⟨k1, v1⟩
      by_cases hk : k1 = k
      · subst hk
        simp [List.lookup_cons]
      · rw [List.any_cons] at h
        rcases Bool.or_eq_true_iff.mp h with h1 | h1
        · exact absurd (by simpa using h1) hk
        · have hne : (k == k1) = false :=
            beq_eq_false_iff_ne.mpr (fun hkk => hk hkk.symm)
          simp only [List.map_cons]
          rw [show (if ((k1, v1) : String × String).1 = k then (k, v) else (k1, v1))
              = (k1, v1) from if_neg hk]
          rw [List.lookup_cons, hne]
          exact ih h1

theorem lookup_append_key (k v : String) :
    ∀ d : MsgDict, d.any (fun kv => kv.1 = k) = false →
      (d ++ [(k, v)]).lookup k = some v := by
  intro d
  induction d with
  | nil => simp [List.lookup_cons]
  | cons kv tl ih =>
      intro h
      rcases kv with ⟨k1, v1⟩
      rw [List.any_cons] at h
      obtain ⟨h1, h2⟩ := Bool.or_eq_false_iff.mp h
      have hk : ¬ (k1 = k) := by simpa using h1
      have hne : (k == k1) = false :=
        beq_eq_false_iff_ne.mpr (fun hkk => hk hkk.symm)
      rw [List.cons_append, List.lookup_cons, hne]
      exact ih h2

theorem lookup_setKey (d : MsgDict) (k v : String) :
    (setKey d k v).lookup k = some v := by
  unfold setKey
  by_cases h : d.any (fun kv => kv.1 = k) = true
  · simp only [h, if_true]
    exact lookup_map_replace k v d h
  · have h' : d.any (fun kv => kv.1 = k) = false := by
      cases hq : d.any (fun kv => kv.1 = k)
      · rfl
      · exact absurd hq h
    simp only [h', Bool.false_eq_true, if_false]
    exact lookup_append_key k v d h'

/-- C4: starting from the fresh buffers of `MCPBCBot.__init__`, the event
buffer holds at most 100 records after any insertion sequence and the
chat-message buffer at most 500 (FIFO eviction from the oldest end);
after 150 sequential event insertions exactly the last 100 remain, in
oldest-first arrival order; and every retained chat-message record is a
dict payload that was stamped with its `"ReceivedAt"` receipt timestamp
at insertion time. -/
theorem buffers_bounded_fifo (u p a s o : String) (xs : List MsgDict)
    (inputs : List (String × Option MsgDict)) :
    ((xs.foldl customized_event_handler (newBot u p a s o)).recent_events).length
      ≤ 100 ∧
    (xs.length = 150 →
      (xs.foldl customized_event_handler (newBot u p a s o)).recent_events =
        xs.drop 50) ∧
    ((inputs.foldl (fun b q => on_ChatRoomMessage b q.1 q.2)
        (newBot u p a s o)).message_history).length ≤ 500 ∧
    (∀ m ∈ (inputs.foldl (fun b q => on_ChatRoomMessage b q.1 q.2)
        (newBot u p a s o)).message_history,
      ∃ ts d, (ts, some d) ∈ inputs ∧ m = setKey d "ReceivedAt" ts ∧
        m.lookup "ReceivedAt" = some ts) := by
  have he : (xs.foldl customized_event_handler (newBot u p a s o)).recent_events =
      xs.drop (xs.length - 100) := by
    rw [recent_events_foldl]
    simp only [newBot]
    exact foldl_boundedAppend 100 xs
  have hh : (inputs.foldl (fun b q => on_ChatRoomMessage b q.1 q.2)
      (newBot u p a s o)).message_history =
      (stamped inputs).drop ((stamped inputs).length - 500) := by
    rw [message_history_foldl]
    simp only [newBot]
    exact foldl_boundedAppend 500 (stamped inputs)
  refine ⟨?_, ?_, ?_, ?_⟩
  · rw [he]
    simp only [List.length_drop]
    omega
  · intro h150
    rw [he, h150]
  · rw [hh]
    simp only [List.length_drop]
    omega
  · intro m hmem
    rw [hh] at hmem
    have hmem' : m ∈ stamped inputs := List.drop_subset _ _ hmem
    simp only [stamped] at hmem'
    rcases List.mem_filterMap.mp hmem' with ⟨q, hq, hfq⟩
    rcases q with ⟨ts, dopt⟩
    cases dopt with
    | none => simp at hfq
    | some d =>
        have hm2 : setKey d "ReceivedAt" ts = m := by simpa using hfq
        subst hm2
        exact ⟨ts, d, hq, rfl, lookup_setKey d "ReceivedAt" ts⟩

theorem buffers_bounded_fifo_witness :
    ((List.replicate 150 ([] : MsgDict)).foldl customized_event_handler
        (newBot "" "" "" "" "")).recent_events =
      (List.replicate 150 ([] : MsgDict)).drop 50 ∧
    (∃ ts d, (ts, some d) ∈ [("t0", some ([] : MsgDict))] ∧
      ([("ReceivedAt", "t0")] : MsgDict) = setKey d "ReceivedAt" ts ∧
      ([("ReceivedAt", "t0")] : MsgDict).lookup "ReceivedAt" = some ts) :=
  ⟨(buffers_bounded_fifo "" "" "" "" "" (List.replicate 150 []) []).2.1 (by simp),
   (buffers_bounded_fifo "" "" "" "" "" [] [("t0", some [])]).2.2.2
     [("ReceivedAt", "t0")] (by decide)⟩
